import Mathlib

/-!
Verification of the spatial point module of the neo4j python driver
(src/neo4j/v1/types/spatial.py), shallowly embedded in Lean 4.

The module defines a `Point` value type (a tuple subclass tagged with a
CRS code), a static table of four generated subclasses, a `hydrate`
factory, structural equality, hashing and display.

Modelling conventions:
- Python numbers appearing as coordinates are modelled by `PyNum`,
  covering integers and integral-valued floats (the only floats that
  occur in the properties under scrutiny).  Python numeric `==` compares
  values across the int/float divide and `str` renders an integral float
  with a trailing `.0`; both behaviours are reproduced.
- Python exceptions are modelled with `Except PyErr`; the
  `try/except (AttributeError, TypeError)` wrapper in `__eq__` is
  modelled by catching exactly those two error values.
- The dynamically generated subclasses of `Point` are modelled by the
  static registry `pointTypes` (the same table the source builds them
  from); an instance records its class as an optional registry entry
  (`none` is the base `Point` class).
- Python runtime hash internals are not in the source; they are modelled
  by concrete functions that preserve the guarantees the code relies on,
  in particular that an int and the equal-valued float hash equally.
-/

/-- A Python numeric value as used for coordinates: an integer, or a
float with integral value (rendered with a trailing `.0`). -/
inductive PyNum where
  | int (n : Int)
  | float (n : Int)
deriving DecidableEq

/-- The numeric value carried by a `PyNum`. -/
def PyNum.val : PyNum → Int
  | .int n => n
  | .float n => n

/-- Python numeric equality `==`: compares values, so `1 == 1.0`. -/
def numEq (a b : PyNum) : Bool :=
  a.val == b.val

/-- Python `str` of a number: ints plain, floats with `.0`. -/
def pyNumStr : PyNum → String
  | .int n => toString n
  | .float n => toString n ++ ".0"

/-- Python tuple equality between coordinate sequences: equal length and
element-wise numeric `==`. -/
def coordsEq : List PyNum → List PyNum → Bool
  | [], [] => true
  | a :: xs, b :: ys => numEq a b && coordsEq xs ys
  | _, _ => false

/-- Errors the module can raise: `ValueError` with its message,
`AttributeError`, `TypeError` and `IndexError`. -/
inductive PyErr where
  | valueError (msg : String)
  | attributeError
  | typeError
  | indexError
deriving DecidableEq

/-- One entry of the `__point_types` table: CRS code, type name and the
ordered attribute names of the generated subclass. -/
structure PointType where
  crs : Int
  name : String
  fields : List String
deriving DecidableEq

/-- The `__point_types` registry from the source, verbatim. -/
def pointTypes : List PointType :=
  [ ⟨7203, "CartesianPoint", ["x", "y"]⟩,
    ⟨9157, "CartesianPoint3D", ["x", "y", "z"]⟩,
    ⟨4326, "WGS84Point", ["longitude", "latitude"]⟩,
    ⟨4979, "WGS84Point3D", ["longitude", "latitude", "height"]⟩ ]

/-- The registered CRS codes, in table order. -/
def registeredCodes : List Int :=
  pointTypes.map PointType.crs

/-- A `Point` instance: its class (`none` for the base `Point` class,
`some t` for the generated subclass described by registry entry `t`),
its `crs` attribute (class attribute `None` on the base class, possibly
overwritten on the instance by `hydrate`), and the underlying tuple of
coordinates (class `Point` extends `tuple`). -/
structure Point where
  cls : Option PointType
  crs : Option Int
  coords : List PyNum
deriving DecidableEq

/-- `Point.__new__`: `tuple.__new__(cls, iterable)` stores the iterable;
the `crs` attribute is the class attribute of `cls` (`None` on the base
class, the registered code on a generated subclass).  No check of the
coordinate count is performed here. -/
def Point.new (cls : Option PointType) (iterable : List PyNum) : Point :=
  { cls := cls, crs := cls.map PointType.crs, coords := iterable }

/-- `Point.__get_subclass`: walk the subclass tree of `Point` comparing
each class attribute `crs` with the requested code.  The base class has
`crs = None`, which never equals an integer code, and its subclasses are
exactly the registry entries in table order, so the walk is a first
match over `pointTypes`. -/
def getSubclass (crs : Int) : Option PointType :=
  pointTypes.find? (fun t => t.crs == crs)

/-- `Point.hydrate`: resolve the subclass for the CRS code (raising
`ValueError` if there is none), then require the coordinate count to be
between 2 and 3 (raising `ValueError` otherwise), then build the
instance and set its `crs` attribute. -/
def hydrate (crs : Int) (coordinates : List PyNum) : Except PyErr Point :=
  match getSubclass crs with
  | none => .error (.valueError ("CRS " ++ toString crs ++ " not supported"))
  | some pc =>
    if 2 ≤ coordinates.length ∧ coordinates.length ≤ 3 then
      .ok { Point.new (some pc) coordinates with crs := some crs }
    else
      .error (.valueError
        (toString coordinates.length ++ "-dimensional Point values are not supported"))

/-- The values a `Point` may be compared against in the properties under
scrutiny: another point, a bare number, or a plain list of numbers. -/
inductive PyValue where
  | point (p : Point)
  | num (v : PyNum)
  | list (xs : List PyNum)
deriving DecidableEq

/-- Whether a `PyValue` is a point. -/
def PyValue.isPoint : PyValue → Bool
  | .point _ => true
  | _ => false

/-- Attribute access `other.crs`: only a point carries the attribute;
anything else raises `AttributeError`. -/
def getCrsAttr : PyValue → Except PyErr (Option Int)
  | .point p => .ok p.crs
  | _ => .error .attributeError

/-- `tuple(other)`: a point or a list converts to its element sequence;
a bare number is not iterable and raises `TypeError`. -/
def toTuple : PyValue → Except PyErr (List PyNum)
  | .point p => .ok p.coords
  | .list xs => .ok xs
  | .num _ => .error .typeError

/-- The body of `Point.__eq__` before the `try/except` wrapper:
`self.crs == other.crs and tuple(self) == tuple(other)`, with Python
short-circuit evaluation of `and`. -/
def pointEqRaw (p : Point) (other : PyValue) : Except PyErr Bool :=
  match getCrsAttr other with
  | .error e => .error e
  | .ok c =>
    if p.crs == c then
      match toTuple other with
      | .error e => .error e
      | .ok t => .ok (coordsEq p.coords t)
    else
      .ok false

/-- `Point.__eq__` including its `try/except (AttributeError, TypeError)`
wrapper, which turns either error into the result `False`. -/
def pointEqVal (p : Point) (other : PyValue) : Except PyErr Bool :=
  match pointEqRaw p other with
  | .error .attributeError => .ok false
  | .error .typeError => .ok false
  | r => r

/-- Model of the Python hash of a coordinate number: Python guarantees
that an int and the equal-valued float hash identically, which is the
property the module relies on. -/
def pyNumHash (v : PyNum) : Nat :=
  (v.val % (2 ^ 61 - 1)).toNat

/-- Model of the Python hash of the coordinate tuple. -/
def tupleHash : List PyNum → Nat
  | [] => 3527539
  | a :: xs => pyNumHash a + 31 * tupleHash xs

/-- Model of the Python hash of the `crs` attribute (`None` hashes to a
fixed implementation value). -/
def crsHash : Option Int → Nat
  | none => 17
  | some n => (n % (2 ^ 61 - 1)).toNat

/-- `Point.__hash__`: `hash(self.crs) ^ hash(tuple(self))`. -/
def pointHash (p : Point) : Nat :=
  Nat.xor (crsHash p.crs) (tupleHash p.coords)

/-- `Point.__repr__`: `"POINT(%s)" % " ".join(map(str, self))`. -/
def pointRepr (p : Point) : String :=
  "POINT(" ++ String.intercalate " " (p.coords.map pyNumStr) ++ ")"

/-- The index a field name is bound to by `__create_point_types`: the
loop `for i, field in enumerate(fields)` stores one property per name,
a later duplicate overwriting an earlier one. -/
def attrIndex (fields : List String) (field : String) : Option Nat :=
  fields.enum.foldl (fun acc x => if x.2 == field then some x.1 else acc) none

/-- Reading a named coordinate accessor on an instance: the base class
has none (`AttributeError`); on a generated subclass the property bound
to the name returns `self[index]`, which raises `IndexError` when the
index is outside the stored tuple. -/
def getattrField (p : Point) (field : String) : Except PyErr PyNum :=
  match p.cls with
  | none => .error .attributeError
  | some t =>
    match attrIndex t.fields field with
    | none => .error .attributeError
    | some i =>
      match p.coords.get? i with
      | some v => .ok v
      | none => .error .indexError

/-- `hydrate` then read a named accessor on the result. -/
def hydrateAttr (c : Int) (xs : List PyNum) (f : String) : Except PyErr PyNum :=
  (hydrate c xs).bind (fun p => getattrField p f)

/-- `hydrate` two points and compare them with `==`. -/
def hydrateEq (a : Int) (xs : List PyNum) (b : Int) (ys : List PyNum) :
    Except PyErr Bool := do
  let p ← hydrate a xs
  let q ← hydrate b ys
  pointEqVal p (.point q)

/-- `hydrate` then render the result with `__repr__`. -/
def hydrateRepr (c : Int) (xs : List PyNum) : Except PyErr String :=
  (hydrate c xs).map pointRepr

/-! ### Helper lemmas -/

theorem getSubclass_of_mem (c : Int) (hc : c ∈ registeredCodes) :
    ∃ t : PointType, getSubclass c = some t ∧ t.crs = c := by
  simp only [registeredCodes, pointTypes, List.map, List.mem_cons,
    List.not_mem_nil, or_false] at hc
  rcases hc with h | h | h | h <;> subst h <;> exact ⟨_, rfl, rfl⟩

theorem getSubclass_of_not_mem (c : Int) (hc : c ∉ registeredCodes) :
    getSubclass c = none := by
  unfold getSubclass
  cases h : pointTypes.find? (fun t => t.crs == c) with
  | none => rfl
  | some t =>
    exfalso
    apply hc
    have hpred := List.find?_some h
    have hmem : t ∈ pointTypes := List.mem_of_find?_eq_some h
    have hcrs : t.crs = c := by simpa using hpred
    exact hcrs ▸ List.mem_map_of_mem PointType.crs hmem

theorem hydrate_ok_inv (c : Int) (cs : List PyNum) (p : Point)
    (hp : hydrate c cs = .ok p) :
    p.cls = getSubclass c ∧ p.crs = some c ∧ p.coords = cs ∧
      2 ≤ cs.length ∧ cs.length ≤ 3 := by
  unfold hydrate at hp
  split at hp
  · simp at hp
  · next t ht =>
    by_cases hlen : 2 ≤ cs.length ∧ cs.length ≤ 3
    · rw [if_pos hlen] at hp
      injection hp with h'
      refine ⟨?_, ?_, ?_, hlen.1, hlen.2⟩ <;> simp [← h', Point.new, ht]
    · rw [if_neg hlen] at hp
      simp at hp

theorem numEq_val (a b : PyNum) : numEq a b = true ↔ a.val = b.val := by
  simp [numEq]

theorem coordsEq_refl (xs : List PyNum) : coordsEq xs xs = true := by
  induction xs with
  | nil => rfl
  | cons a xs ih => simp [coordsEq, ih, numEq]

theorem coordsEq_symm (xs ys : List PyNum) (h : coordsEq xs ys = true) :
    coordsEq ys xs = true := by
  induction xs generalizing ys with
  | nil => cases ys with
    | nil => rfl
    | cons b ys => simp [coordsEq] at h
  | cons a xs ih =>
    cases ys with
    | nil => simp [coordsEq] at h
    | cons b ys =>
      simp only [coordsEq, Bool.and_eq_true] at h ⊢
      exact ⟨by rw [numEq_val] at h ⊢; omega, ih ys h.2⟩

theorem coordsEq_trans (xs ys zs : List PyNum) (h1 : coordsEq xs ys = true)
    (h2 : coordsEq ys zs = true) : coordsEq xs zs = true := by
  induction xs generalizing ys zs with
  | nil =>
    cases ys with
    | nil => exact h2
    | cons b ys => simp [coordsEq] at h1
  | cons a xs ih =>
    cases ys with
    | nil => simp [coordsEq] at h1
    | cons b ys =>
      cases zs with
      | nil => simp [coordsEq] at h2
      | cons cz zs =>
        simp only [coordsEq, Bool.and_eq_true] at h1 h2 ⊢
        refine ⟨?_, ih ys zs h1.2 h2.2⟩
        rw [numEq_val] at h1 h2 ⊢
        omega

theorem pointEqVal_point (p q : Point) :
    pointEqVal p (.point q) =
      .ok (p.crs == q.crs && coordsEq p.coords q.coords) := by
  by_cases h : p.crs = q.crs <;>
    simp [pointEqVal, pointEqRaw, getCrsAttr, toTuple, Except.bind, h]

theorem pyNumHash_congr (a b : PyNum) (h : numEq a b = true) :
    pyNumHash a = pyNumHash b := by
  rw [numEq_val] at h
  simp [pyNumHash, h]

theorem tupleHash_congr (xs ys : List PyNum) (h : coordsEq xs ys = true) :
    tupleHash xs = tupleHash ys := by
  induction xs generalizing ys with
  | nil =>
    cases ys with
    | nil => rfl
    | cons b ys => simp [coordsEq] at h
  | cons a xs ih =>
    cases ys with
    | nil => simp [coordsEq] at h
    | cons b ys =>
      simp only [coordsEq, Bool.and_eq_true] at h
      simp [tupleHash, pyNumHash_congr a b h.1, ih ys h.2]

/-! ### Claim theorems -/

/-- C1: for every registered CRS code and every coordinate list of
length 2 or 3, `hydrate` succeeds and returns a point whose class is the
variant registered for that code, whose `crs` attribute is the code and
whose coordinates are the submitted list, even when the length differs
from the number of axis names of the variant. -/
theorem hydrate_registered_ok (c : Int) (hc : c ∈ registeredCodes)
    (cs : List PyNum) (hl : cs.length = 2 ∨ cs.length = 3) :
    ∃ p : Point, hydrate c cs = .ok p ∧ p.crs = some c ∧ p.coords = cs ∧
      ∃ t : PointType, p.cls = some t ∧ t.crs = c := by
  obtain ⟨t, ht, htc⟩ := getSubclass_of_mem c hc
  refine ⟨{ cls := some t, crs := some c, coords := cs }, ?_, rfl, rfl, t, rfl, htc⟩
  simp only [hydrate, ht]
  rw [if_pos (by omega : 2 ≤ cs.length ∧ cs.length ≤ 3)]
  rfl

/-- Witness for C1: hydrating CRS 7203 (a 2-axis variant) with three
coordinates succeeds with all three coordinates stored. -/
theorem hydrate_registered_ok_witness :
    ∃ p : Point,
      hydrate 7203 [.int 1, .int 2, .int 3] = .ok p ∧ p.crs = some 7203 ∧
        p.coords = [.int 1, .int 2, .int 3] ∧
        ∃ t : PointType, p.cls = some t ∧ t.crs = 7203 :=
  hydrate_registered_ok 7203 (by decide) [.int 1, .int 2, .int 3] (by decide)

/-- C2: for every CRS code outside the registry and every coordinate
list of any length, `hydrate` fails with the `ValueError` naming the
offending code; the CRS lookup precedes the dimensionality check, so no
base point is ever produced. -/
theorem hydrate_unregistered_crs (c : Int) (hc : c ∉ registeredCodes)
    (cs : List PyNum) :
    hydrate c cs =
      .error (.valueError ("CRS " ++ toString c ++ " not supported")) := by
  unfold hydrate
  rw [getSubclass_of_not_mem c hc]

/-- Witness for C2: CRS 1234 with a single coordinate fails with the
unsupported-CRS error, not the dimensionality error. -/
theorem hydrate_unregistered_crs_witness :
    hydrate 1234 [.int 1] =
      .error (.valueError ("CRS " ++ toString (1234 : Int) ++ " not supported")) :=
  hydrate_unregistered_crs 1234 (by decide) [.int 1]

/-- C3: for every registered CRS code and every coordinate list whose
length is not 2 and not 3, `hydrate` fails with the `ValueError` naming
the submitted count. -/
theorem hydrate_bad_dimensionality (c : Int) (hc : c ∈ registeredCodes)
    (cs : List PyNum) (hl : cs.length ≠ 2 ∧ cs.length ≠ 3) :
    hydrate c cs =
      .error (.valueError
        (toString cs.length ++ "-dimensional Point values are not supported")) := by
  obtain ⟨t, ht, -⟩ := getSubclass_of_mem c hc
  simp only [hydrate, ht]
  rw [if_neg (by omega : ¬(2 ≤ cs.length ∧ cs.length ≤ 3))]

/-- Witness for C3: CRS 7203 with four coordinates fails with the
4-dimensional error. -/
theorem hydrate_bad_dimensionality_witness :
    hydrate 7203 [.int 1, .int 2, .int 3, .int 4] =
      .error (.valueError
        (toString ([PyNum.int 1, .int 2, .int 3, .int 4].length) ++
          "-dimensional Point values are not supported")) :=
  hydrate_bad_dimensionality 7203 (by decide)
    [.int 1, .int 2, .int 3, .int 4] (by decide)

/-- C4: point equality holds exactly when the `crs` attributes are equal
and the coordinate sequences are equal element-wise; it is reflexive,
symmetric and transitive on points, two hydrations of CRS 7203 with
coordinates `[1, 2]` compare equal, and a hydration of CRS 7203 compares
unequal to a hydration of CRS 4326 with the same coordinates. -/
theorem point_equality_characterization :
    (∀ p q : Point, pointEqVal p (.point q) = .ok true ↔
        (p.crs = q.crs ∧ coordsEq p.coords q.coords = true))
    ∧ (∀ p : Point, pointEqVal p (.point p) = .ok true)
    ∧ (∀ p q : Point, pointEqVal p (.point q) = .ok true →
        pointEqVal q (.point p) = .ok true)
    ∧ (∀ p q r : Point, pointEqVal p (.point q) = .ok true →
        pointEqVal q (.point r) = .ok true →
        pointEqVal p (.point r) = .ok true)
    ∧ hydrateEq 7203 [.int 1, .int 2] 7203 [.int 1, .int 2] = .ok true
    ∧ hydrateEq 7203 [.int 1, .int 2] 4326 [.int 1, .int 2] = .ok false := by
  have hchar : ∀ p q : Point, pointEqVal p (.point q) = .ok true ↔
      (p.crs = q.crs ∧ coordsEq p.coords q.coords = true) := by
    intro p q
    rw [pointEqVal_point]
    constructor
    · intro h
      injection h with h'
      simp only [Bool.and_eq_true, beq_iff_eq] at h'
      exact h'
    · intro ⟨h1, h2⟩
      simp [h1, h2]
  refine ⟨hchar, ?_, ?_, ?_, rfl, rfl⟩
  · intro p
    exact (hchar p p).2 ⟨rfl, coordsEq_refl p.coords⟩
  · intro p q h
    obtain ⟨h1, h2⟩ := (hchar p q).1 h
    exact (hchar q p).2 ⟨h1.symm, coordsEq_symm _ _ h2⟩
  · intro p q r hpq hqr
    obtain ⟨h1, h2⟩ := (hchar p q).1 hpq
    obtain ⟨h3, h4⟩ := (hchar q r).1 hqr
    exact (hchar p r).2 ⟨h1.trans h3, coordsEq_trans _ _ _ h2 h4⟩

/-- Witness for C4: symmetry applied to two concrete equal points, one
with int and one with float coordinates. -/
theorem point_equality_characterization_witness :
    pointEqVal ⟨none, none, [.float 1, .float 2]⟩
      (.point ⟨none, none, [.int 1, .int 2]⟩) = .ok true :=
  point_equality_characterization.2.2.1
    ⟨none, none, [.int 1, .int 2]⟩ ⟨none, none, [.float 1, .float 2]⟩ (by rfl)

/-- C5: equal points hash equally; the hash is computed from the `crs`
attribute and the coordinate tuple alone. -/
theorem point_hash_consistent_with_eq (p q : Point)
    (h : pointEqVal p (.point q) = .ok true) : pointHash p = pointHash q := by
  rw [pointEqVal_point] at h
  injection h with h'
  simp only [Bool.and_eq_true, beq_iff_eq] at h'
  unfold pointHash
  rw [h'.1, tupleHash_congr p.coords q.coords h'.2]

/-- Witness for C5: a point with int coordinates and the equal point
with float coordinates hash identically. -/
theorem point_hash_consistent_with_eq_witness :
    pointHash ⟨none, none, [.int 1, .int 2]⟩ =
      pointHash ⟨none, none, [.float 1, .float 2]⟩ :=
  point_hash_consistent_with_eq
    ⟨none, none, [.int 1, .int 2]⟩ ⟨none, none, [.float 1, .float 2]⟩ (by rfl)

/-- C6: comparing a point against any non-point value returns the result
False rather than propagating an error. -/
theorem point_eq_non_point_is_false (p : Point) (v : PyValue)
    (hv : v.isPoint = false) : pointEqVal p v = .ok false := by
  cases v with
  | point q => simp [PyValue.isPoint] at hv
  | num n => rfl
  | list xs => rfl

/-- Witness for C6: a point compared against the integer 3 and against
the plain list `[1, 2]` both yield the result False. -/
theorem point_eq_non_point_is_false_witness :
    pointEqVal ⟨none, none, [.int 1, .int 2]⟩ (.num (.int 3)) = .ok false ∧
    pointEqVal ⟨none, none, [.int 1, .int 2]⟩ (.list [.int 1, .int 2]) =
      .ok false :=
  ⟨point_eq_non_point_is_false _ _ (by rfl),
   point_eq_non_point_is_false _ _ (by rfl)⟩

/-- C7: the representation of a point is `POINT(` followed by the
space-separated coordinate strings in stored order followed by `)`;
in particular CRS 7203 with floats 1.0 and 2.0 renders as
`POINT(1.0 2.0)` and CRS 9157 with ints 1, 2, 3 as `POINT(1 2 3)`. -/
theorem point_repr_format :
    (∀ (p : Point) (a b : PyNum), p.coords = [a, b] →
        pointRepr p = "POINT(" ++ pyNumStr a ++ " " ++ pyNumStr b ++ ")")
    ∧ (∀ (p : Point) (a b c : PyNum), p.coords = [a, b, c] →
        pointRepr p =
          "POINT(" ++ pyNumStr a ++ " " ++ pyNumStr b ++ " " ++ pyNumStr c ++ ")")
    ∧ hydrateRepr 7203 [.float 1, .float 2] = .ok "POINT(1.0 2.0)"
    ∧ hydrateRepr 9157 [.int 1, .int 2, .int 3] = .ok "POINT(1 2 3)" := by
  refine ⟨?_, ?_, rfl, rfl⟩
  · intro p a b h
    simp [pointRepr, h, String.intercalate, String.intercalate.go,
      String.append_assoc]
  · intro p a b c h
    simp [pointRepr, h, String.intercalate, String.intercalate.go,
      String.append_assoc]

/-- Witness for C7: the two-coordinate shape applied to a concrete
point. -/
theorem point_repr_format_witness :
    pointRepr ⟨none, none, [.float 1, .int 5]⟩ =
      "POINT(" ++ pyNumStr (.float 1) ++ " " ++ pyNumStr (.int 5) ++ ")" :=
  point_repr_format.1 ⟨none, none, [.float 1, .int 5]⟩ (.float 1) (.int 5) rfl

/-- C8: on a hydrated point, the named accessor bound to index `i` of
the variant field list returns exactly the coordinate stored at index
`i` of the submitted coordinate list. -/
theorem named_accessor_projection (c : Int) (cs : List PyNum) (p : Point)
    (hp : hydrate c cs = .ok p) (t : PointType) (hcls : p.cls = some t)
    (field : String) (i : Nat) (hi : attrIndex t.fields field = some i)
    (hlen : i < cs.length) :
    getattrField p field = .ok (cs.get ⟨i, hlen⟩) := by
  obtain ⟨-, -, hcoords, -, -⟩ := hydrate_ok_inv c cs p hp
  simp only [getattrField, hcls, hi]
  rw [hcoords, List.get?_eq_get hlen]

/-- Witness for C8: the `longitude` accessor of a hydrated WGS84Point3D
returns the first coordinate. -/
theorem named_accessor_projection_witness :
    getattrField
      ⟨some ⟨4979, "WGS84Point3D", ["longitude", "latitude", "height"]⟩,
        some 4979, [.int 1, .int 2, .int 3]⟩ "longitude" = .ok (.int 1) :=
  named_accessor_projection 4979 [.int 1, .int 2, .int 3] _ (by rfl) _ (by rfl)
    "longitude" 0 (by rfl) (by decide)

/-- C9 counterexample: constructing the base `Point` directly from a
one-element iterable yields a point whose coordinate count is neither
2 nor 3, so the claim that every point however constructed has 2 or 3
coordinates is false. -/
theorem point_count_counterexample :
    ¬((Point.new none [.int 1]).coords.length = 2 ∨
      (Point.new none [.int 1]).coords.length = 3) := by
  decide

/-- C9 (amended): every point produced by the `hydrate` factory has a
coordinate count of exactly 2 or 3; direct construction of the base
type performs no such check. -/
theorem hydrate_point_count (c : Int) (cs : List PyNum) (p : Point)
    (hp : hydrate c cs = .ok p) :
    p.coords.length = 2 ∨ p.coords.length = 3 := by
  obtain ⟨-, -, hcoords, h2, h3⟩ := hydrate_ok_inv c cs p hp
  rw [hcoords]
  omega

/-- Witness for C9 (amended): a concrete hydrated point has 2
coordinates. -/
theorem hydrate_point_count_witness :
    (⟨some ⟨7203, "CartesianPoint", ["x", "y"]⟩, some 7203,
        [.int 1, .int 2]⟩ : Point).coords.length = 2 ∨
    (⟨some ⟨7203, "CartesianPoint", ["x", "y"]⟩, some 7203,
        [.int 1, .int 2]⟩ : Point).coords.length = 3 :=
  hydrate_point_count 7203 [.int 1, .int 2] _ (by rfl)

/-- C10: hydrating a 3-axis CRS (9157 or 4979) with two coordinates
succeeds and yields the 3-axis variant, but reading its third named
accessor (`z`, respectively `height`) raises `IndexError` because the
stored tuple has only two elements. -/
theorem three_axis_two_coords_accessor_raises (a b : PyNum) :
    hydrate 9157 [a, b] =
      .ok ⟨some ⟨9157, "CartesianPoint3D", ["x", "y", "z"]⟩, some 9157, [a, b]⟩
    ∧ hydrate 4979 [a, b] =
      .ok ⟨some ⟨4979, "WGS84Point3D", ["longitude", "latitude", "height"]⟩,
        some 4979, [a, b]⟩
    ∧ hydrateAttr 9157 [a, b] "z" = .error .indexError
    ∧ hydrateAttr 4979 [a, b] "height" = .error .indexError :=
  ⟨rfl, rfl, rfl, rfl⟩
